import Mathlib

/-!
Shallow embedding of the CloudDrive backend (Express + Supabase).

Tables (`files`, `file_versions`, `shares`, `user_quotas`, `profiles`) are
modelled as in-memory lists of rows, the object store bucket as a list of
blob paths, and each HTTP route handler as a pure function from a
`DriveState` plus request parameters to a response and a new state.
Randomly generated storage names / public tokens and freshly assigned row
ids are passed in as parameters, timestamps are naturals, and response
bodies are reduced to the fields the verified properties mention
(HTTP status, machine-readable error code, payload).  Supabase
`maybeSingle()` / `single()` row lookups become `List.find?` (the row sets
are keyed by unique ids in the schema), `insert` appends a row, `update`
maps over the rows matching the filter, `delete` filters them out, and a
storage upload with `upsert:false` fails when the path is already present.
-/

namespace CloudDrive

/-- Share permission stored on a share row (the `permissions` column). -/
inductive SharePerm where
  | view
  | edit
  | admin
deriving DecidableEq, Repr

/-- The `share_type` column: targeted (private) share or public link. -/
inductive ShareType where
  | privateShare
  | publicShare
deriving DecidableEq, Repr

/-- Permission level used by `hasFilePermission` (utils/permissions.ts). -/
inductive PermissionLevel where
  | view
  | edit
  | owner
deriving DecidableEq, Repr

/-- The `change_type` column of `file_versions`. -/
inductive ChangeType where
  | update
  | restore
deriving DecidableEq, Repr

/-- Row of the `files` table (files and folders). -/
structure FileRow where
  id : Nat
  user_id : Nat
  name : String
  original_name : String
  size : Nat
  type : String
  mime_type : String
  extension : Option String
  path : String
  parent_id : Option Nat
  is_folder : Bool
  is_starred : Bool
  is_deleted : Bool
  deleted_at : Option Nat
deriving DecidableEq, Repr

/-- Row of the `file_versions` table. -/
structure VersionRow where
  file_id : Nat
  version_number : Nat
  size : Nat
  path : String
  change_type : ChangeType
  created_by : Nat
deriving DecidableEq, Repr

/-- Row of the `shares` table. -/
structure ShareRow where
  id : Nat
  file_id : Nat
  owner_id : Nat
  shared_with_email : String
  permissions : SharePerm
  share_type : ShareType
  public_token : Option String
  expires_at : Option Nat
deriving DecidableEq, Repr

/-- Row of the `user_quotas` table. -/
structure QuotaRow where
  user_id : Nat
  storage_used : Nat
  storage_limit : Nat
  file_count : Nat
  file_count_limit : Nat
deriving DecidableEq, Repr

/-- Row of the `profiles` table (only the fields permission checks use). -/
structure ProfileRow where
  id : Nat
  email : String
deriving DecidableEq, Repr

/-- The whole external state the handlers touch: database plus storage. -/
structure DriveState where
  files : List FileRow
  file_versions : List VersionRow
  shares : List ShareRow
  user_quotas : List QuotaRow
  profiles : List ProfileRow
  blobs : List String
deriving DecidableEq, Repr

/-- Result of `enforceQuotaOnUpload`; the human-readable `reason` text is
elided, the machine-readable `code` is kept. -/
inductive QuotaCheck where
  | allowed
  | denied (code : String)
deriving DecidableEq, Repr

/-- The four effective quota values read by `enforceQuotaOnUpload`:
`(storage_used, storage_limit, file_count, file_count_limit)`, with the
source's defaults (0, 5GiB, 0, 10000) when no quota row exists. -/
def effectiveQuota (quotas : List QuotaRow) (userId : Nat) :
    Nat × Nat × Nat × Nat :=
  let q := quotas.find? (fun r => r.user_id == userId)
  ((q.map (fun r => r.storage_used)).getD 0,
   (q.map (fun r => r.storage_limit)).getD (5 * 1024 * 1024 * 1024),
   (q.map (fun r => r.file_count)).getD 0,
   (q.map (fun r => r.file_count_limit)).getD 10000)

/-- `enforceQuotaOnUpload` from file-operations.ts: storage ceiling first,
then file-count ceiling. -/
def enforceQuotaOnUpload (quotas : List QuotaRow) (userId newFileSize : Nat) :
    QuotaCheck :=
  match effectiveQuota quotas userId with
  | (storageUsed, storageLimit, fileCount, fileCountLimit) =>
    if storageUsed + newFileSize > storageLimit then
      QuotaCheck.denied "STORAGE_LIMIT_EXCEEDED"
    else if fileCount + 1 > fileCountLimit then
      QuotaCheck.denied "FILE_COUNT_LIMIT_EXCEEDED"
    else
      QuotaCheck.allowed

/-- `getFileExt` from file-operations.ts (`name.split "."`, last part,
empty string mapped to null). -/
def getFileExt (name : String) : Option String :=
  let parts := name.splitOn "."
  if parts.length > 1 then
    match parts.getLast? with
    | some s => if s = "" then none else some s
    | none => none
  else none

/-- Response of POST /upload (status plus optional error code). -/
structure UploadResp where
  status : Nat
  code : Option String
deriving DecidableEq, Repr

/-- POST /upload: quota check, then storage upload (`upsert:false`, so an
existing path errors and the handler answers 500), then the `files` row
insert.  `randName` stands for the generated `Date.now()-random` name and
`newId` for the id the database assigns. -/
def uploadFile (st : DriveState) (userId : Nat) (origName : String)
    (fsize : Nat) (mime : String) (randName : String) (parentId : Option Nat)
    (newId : Nat) : UploadResp × DriveState :=
  match enforceQuotaOnUpload st.user_quotas userId fsize with
  | QuotaCheck.denied code => ({ status := 403, code := some code }, st)
  | QuotaCheck.allowed =>
    let storagePath := toString userId ++ "/" ++ randName
    if storagePath ∈ st.blobs then
      ({ status := 500, code := none }, st)
    else
      ({ status := 200, code := none },
       { st with
         blobs := st.blobs ++ [storagePath],
         files := st.files ++ [{
           id := newId, user_id := userId, name := origName,
           original_name := origName, size := fsize, type := mime,
           mime_type := mime, extension := getFileExt origName,
           path := storagePath, parent_id := parentId, is_folder := false,
           is_starred := false, is_deleted := false, deleted_at := none }] })

/-- `isOwner` from utils/permissions.ts. -/
def isOwner (st : DriveState) (userId fileId : Nat) : Bool :=
  (st.files.find? (fun f => f.id == fileId && f.user_id == userId)).isSome

/-- `getCurrentUserEmail` from utils/permissions.ts. -/
def getCurrentUserEmail (st : DriveState) (userId : Nat) : Option String :=
  (st.profiles.find? (fun p => p.id == userId)).map (fun p => p.email)

/-- The share lookup of `hasFilePermission`: row keyed by
(file id, shared-with email). -/
def findShare (shares : List ShareRow) (fileId : Nat) (email : String) :
    Option ShareRow :=
  shares.find? (fun s => s.file_id == fileId && s.shared_with_email == email)

/-- The level a share row grants: admin is treated as edit. -/
def levelOfShare (s : ShareRow) : PermissionLevel :=
  if s.permissions = SharePerm.view then PermissionLevel.view
  else PermissionLevel.edit

/-- Result shape of `hasFilePermission`. -/
structure PermResult where
  allowed : Bool
  level : Option PermissionLevel
deriving DecidableEq, Repr

/-- `hasFilePermission` from utils/permissions.ts.  An empty resolved email
is falsy in the source (`if (!email)`), hence the explicit guard. -/
def hasFilePermission (st : DriveState) (userId fileId : Nat)
    (needed : PermissionLevel) : PermResult :=
  if isOwner st userId fileId then
    { allowed := true, level := some PermissionLevel.owner }
  else if needed = PermissionLevel.owner then
    { allowed := false, level := none }
  else
    match getCurrentUserEmail st userId with
    | none => { allowed := false, level := none }
    | some email =>
      if email = "" then { allowed := false, level := none }
      else
        match findShare st.shares fileId email with
        | none => { allowed := false, level := none }
        | some share =>
          let level := levelOfShare share
          if needed = PermissionLevel.view then
            { allowed := true, level := some level }
          else if needed = PermissionLevel.edit then
            { allowed := level == PermissionLevel.edit, level := some level }
          else
            { allowed := false, level := none }

/-- Response carrying only an HTTP status. -/
structure StatusResp where
  status : Nat
deriving DecidableEq, Repr

/-- PATCH /:id (rename / move / star).  The ownership check returns 404 for
a file that does not exist or is not owned by the caller; with no change
fields the handler answers 400; otherwise it updates the row by id. -/
def patchFile (st : DriveState) (userId fileId : Nat) (name : Option String)
    (parentId : Option (Option Nat)) (starred : Option Bool) :
    StatusResp × DriveState :=
  match st.files.find? (fun f => f.id == fileId && f.user_id == userId) with
  | none => ({ status := 404 }, st)
  | some _ =>
    let nameChanges : Nat :=
      match name with
      | some n => if n.trim ≠ "" then 1 else 0
      | none => 0
    let changes : Nat := nameChanges +
      (if parentId.isSome then 1 else 0) + (if starred.isSome then 1 else 0)
    if changes = 0 then ({ status := 400 }, st)
    else
      ({ status := 200 },
       { st with files := st.files.map (fun f =>
           if f.id == fileId then
             let f1 :=
               match name with
               | some n =>
                 if n.trim ≠ "" then
                   { f with name := n.trim, original_name := n.trim }
                 else f
               | none => f
             let f2 :=
               match parentId with
               | some p => { f1 with parent_id := p }
               | none => f1
             match starred with
             | some b => { f2 with is_starred := b }
             | none => f2
           else f) })

/-- DELETE /:id (soft delete): ownership check (404), conflict when the
file is already in the trash (409), else mark deleted with a timestamp. -/
def softDeleteFile (st : DriveState) (userId fileId now : Nat) :
    StatusResp × DriveState :=
  match st.files.find? (fun f => f.id == fileId && f.user_id == userId) with
  | none => ({ status := 404 }, st)
  | some f =>
    if f.is_deleted then ({ status := 409 }, st)
    else
      ({ status := 200 },
       { st with files := st.files.map (fun g =>
           if g.id == fileId then
             { g with is_deleted := true, deleted_at := some now }
           else g) })

/-- POST /:id/restore (restore from trash): ownership check (404), conflict
when the file is not in the trash (409), else clear the deletion mark. -/
def restoreFromTrash (st : DriveState) (userId fileId : Nat) :
    StatusResp × DriveState :=
  match st.files.find? (fun f => f.id == fileId && f.user_id == userId) with
  | none => ({ status := 404 }, st)
  | some f =>
    if f.is_deleted ≠ true then ({ status := 409 }, st)
    else
      ({ status := 200 },
       { st with files := st.files.map (fun g =>
           if g.id == fileId then
             { g with is_deleted := false, deleted_at := none }
           else g) })

/-- DELETE /:id/permanent: ownership check (404, with no is_deleted
filter), best-effort blob removal (skipped for a falsy empty path, errors
only logged), then the row deletion by id. -/
def permanentDeleteFile (st : DriveState) (userId fileId : Nat) :
    StatusResp × DriveState :=
  match st.files.find? (fun f => f.id == fileId && f.user_id == userId) with
  | none => ({ status := 404 }, st)
  | some f =>
    ({ status := 200 },
     { st with
       blobs := if f.path ≠ "" then st.blobs.filter (fun p => p ≠ f.path)
                else st.blobs,
       files := st.files.filter (fun g => g.id != fileId) })

/-- A signed retrieval URL: the object path plus its validity in seconds. -/
structure SignedUrl where
  path : String
  expiresIn : Nat
deriving DecidableEq, Repr

/-- `supabase.storage.createSignedUrl`: fails when the object is absent. -/
def createSignedUrl (blobs : List String) (path : String) (expiresIn : Nat) :
    Option SignedUrl :=
  if path ∈ blobs then some { path := path, expiresIn := expiresIn }
  else none

/-- Response of GET /:id/download. -/
structure DownloadResp where
  status : Nat
  downloadUrl : Option SignedUrl
deriving DecidableEq, Repr

/-- GET /:id/download: permission check (403 without at least view), then
the file fetch filtered by `is_deleted = false` (404), then a 1-hour
signed URL (a storage error degenerates to 500). -/
def downloadFile (st : DriveState) (userId fileId : Nat) : DownloadResp :=
  if (hasFilePermission st userId fileId PermissionLevel.view).allowed = false
  then { status := 403, downloadUrl := none }
  else
    match st.files.find? (fun f => f.id == fileId && f.is_deleted == false) with
    | none => { status := 404, downloadUrl := none }
    | some f =>
      match createSignedUrl st.blobs f.path 3600 with
      | none => { status := 500, downloadUrl := none }
      | some url => { status := 200, downloadUrl := some url }

/-- The `version_number`s recorded for one file, in table order. -/
def versionNumbersOf (versions : List VersionRow) (fileId : Nat) : List Nat :=
  (versions.filter (fun v => v.file_id == fileId)).map
    (fun v => v.version_number)

/-- The `order by version_number desc limit 1 maybeSingle` read used by
version creation and restore: the largest recorded number, or 0 when the
file has no versions (the source's `?? 0`). -/
def maxVersionNumber (versions : List VersionRow) (fileId : Nat) : Nat :=
  (versionNumbersOf versions fileId).foldl max 0

/-- The storage path of a version blob
(`userId/versions/fileId/versionName`). -/
def versionPathOf (userId fileId : Nat) (versionName : String) : String :=
  toString userId ++ "/versions/" ++ toString fileId ++ "/" ++ versionName

/-- Response of POST /:id/versions. -/
structure VersionResp where
  status : Nat
  versionNumber : Option Nat
deriving DecidableEq, Repr

/-- One uploaded blob for version creation: the generated storage name,
its size, its MIME type and the extension computed from the original
name. -/
structure VBlob where
  vname : String
  bsize : Nat
  mime : String
  ext : Option String
deriving DecidableEq, Repr

/-- POST /:id/versions: ownership+not-deleted check (404); version blob
upload (`upsert:false`); next number = (max existing or 0) + 1; version
row insert with change kind `update`; then the `files` row is updated to
mirror the new version's size/type/path. -/
def createVersion (st : DriveState) (userId fileId : Nat) (b : VBlob) :
    VersionResp × DriveState :=
  match st.files.find? (fun f =>
      f.id == fileId && f.user_id == userId && f.is_deleted == false) with
  | none => ({ status := 404, versionNumber := none }, st)
  | some _ =>
    let versionPath := versionPathOf userId fileId b.vname
    if versionPath ∈ st.blobs then
      ({ status := 500, versionNumber := none }, st)
    else
      let nextVersion := maxVersionNumber st.file_versions fileId + 1
      ({ status := 200, versionNumber := some nextVersion },
       { st with
         blobs := st.blobs ++ [versionPath],
         file_versions := st.file_versions ++ [{
           file_id := fileId, version_number := nextVersion,
           size := b.bsize, path := versionPath,
           change_type := ChangeType.update, created_by := userId }],
         files := st.files.map (fun f =>
           if f.id == fileId then
             { f with
               size := b.bsize, type := b.mime, mime_type := b.mime,
               extension := b.ext, path := versionPath }
           else f) })

/-- Serialized sequence of version-creation calls, collecting each call's
response and threading the state. -/
def iterCreateVersions (userId fileId : Nat) :
    DriveState → List VBlob → List VersionResp × DriveState
  | st, [] => ([], st)
  | st, b :: bs =>
    let r := createVersion st userId fileId b
    let rest := iterCreateVersions userId fileId r.2 bs
    (r.1 :: rest.1, rest.2)

/-- POST /:id/versions/:versionNumber/restore: ownership check (404); the
target version lookup (404 when absent, nothing mutated); copy its
path/size onto the `files` row; append a fresh version row numbered
(max existing) + 1 with change kind `restore`. -/
def restoreVersion (st : DriveState) (userId fileId versionNumber : Nat) :
    StatusResp × DriveState :=
  match st.files.find? (fun f => f.id == fileId && f.user_id == userId) with
  | none => ({ status := 404 }, st)
  | some _ =>
    match st.file_versions.find? (fun v =>
        v.file_id == fileId && v.version_number == versionNumber) with
    | none => ({ status := 404 }, st)
    | some ver =>
      let nextVersion := maxVersionNumber st.file_versions fileId + 1
      ({ status := 200 },
       { st with
         files := st.files.map (fun f =>
           if f.id == fileId then
             { f with path := ver.path, size := ver.size }
           else f),
         file_versions := st.file_versions ++ [{
           file_id := fileId, version_number := nextVersion,
           size := ver.size, path := ver.path,
           change_type := ChangeType.restore, created_by := userId }] })

/-- POST /:fileId/share (share-operations.ts): missing email is a 400, file
ownership and target profile existence are 404s, an existing row for
(file id, email) is a 409 conflict, otherwise a private share row is
inserted.  The enum argument already enforces the valid-permissions
check of the source. -/
def shareFile (st : DriveState) (userId fileId : Nat) (email : String)
    (perms : SharePerm) (newShareId : Nat) : StatusResp × DriveState :=
  if email = "" then ({ status := 400 }, st)
  else
    match st.files.find? (fun f => f.id == fileId && f.user_id == userId) with
    | none => ({ status := 404 }, st)
    | some _ =>
      match st.profiles.find? (fun p => p.email == email) with
      | none => ({ status := 404 }, st)
      | some _ =>
        match findShare st.shares fileId email with
        | some _ => ({ status := 409 }, st)
        | none =>
          ({ status := 200 },
           { st with shares := st.shares ++ [{
               id := newShareId, file_id := fileId, owner_id := userId,
               shared_with_email := email, permissions := perms,
               share_type := ShareType.privateShare, public_token := none,
               expires_at := none }] })

/-- POST /:fileId/public: ownership check (404), then a public share row
with empty `shared_with_email`, view permission and optional expiry is
inserted.  The generated 48-hex-char token is a parameter. -/
def createPublicLink (st : DriveState) (userId fileId : Nat) (token : String)
    (expiresAt : Option Nat) (newShareId : Nat) : StatusResp × DriveState :=
  match st.files.find? (fun f => f.id == fileId && f.user_id == userId) with
  | none => ({ status := 404 }, st)
  | some _ =>
    ({ status := 200 },
     { st with shares := st.shares ++ [{
         id := newShareId, file_id := fileId, owner_id := userId,
         shared_with_email := "", permissions := SharePerm.view,
         share_type := ShareType.publicShare, public_token := some token,
         expires_at := expiresAt }] })

/-- The share lookup of GET /public/:token: by token and public type. -/
def findPublicShare (shares : List ShareRow) (token : String) :
    Option ShareRow :=
  shares.find? (fun s =>
    s.public_token == some token && s.share_type == ShareType.publicShare)

/-- The expiry test of GET /public/:token:
`share.expires_at && new Date(share.expires_at) < new Date()`. -/
def linkIsExpired (expiresAt : Option Nat) (now : Nat) : Bool :=
  match expiresAt with
  | some t => t < now
  | none => false

/-- Response of GET /public/:token. -/
structure PublicResp where
  status : Nat
  fileId : Option Nat
  fileName : Option String
  fileSize : Option Nat
  downloadUrl : Option SignedUrl
deriving DecidableEq, Repr

/-- GET /public/:token (unauthenticated): 404 when no public share carries
the token, 410 when its expiry is strictly past, else the joined file's
metadata plus a 1-hour signed URL.  The join applies no `is_deleted`
filter; a missing joined row or a failing signed-URL call surfaces as
500. -/
def resolvePublicLink (st : DriveState) (token : String) (now : Nat) :
    PublicResp :=
  match findPublicShare st.shares token with
  | none =>
    { status := 404, fileId := none, fileName := none, fileSize := none,
      downloadUrl := none }
  | some share =>
    if linkIsExpired share.expires_at now then
      { status := 410, fileId := none, fileName := none, fileSize := none,
        downloadUrl := none }
    else
      match st.files.find? (fun f => f.id == share.file_id) with
      | none =>
        { status := 500, fileId := none, fileName := none, fileSize := none,
          downloadUrl := none }
      | some f =>
        match createSignedUrl st.blobs f.path 3600 with
        | none =>
          { status := 500, fileId := none, fileName := none,
            fileSize := none, downloadUrl := none }
        | some url =>
          { status := 200, fileId := some f.id, fileName := some f.name,
            fileSize := some f.size, downloadUrl := some url }

/-- A convenience builder for file rows of the worked example below. -/
def mkFile (id userId : Nat) (nm : String) (sz : Nat) (p : String)
    (deleted : Bool) (delAt : Option Nat) : FileRow :=
  { id := id, user_id := userId, name := nm, original_name := nm, size := sz,
    type := "text/plain", mime_type := "text/plain", extension := some "txt",
    path := p, parent_id := none, is_folder := false, is_starred := false,
    is_deleted := deleted, deleted_at := delAt }

/-- A small concrete drive used to instantiate the theorems: user 1 owns
four files (11 is in the trash), user 2 holds a view share and user 3 an
admin share on file 10, three public links exist (one on the trashed file
11, one expired at time 5), file 12 has two versions, and user 7 has a
quota row with 5 bytes of headroom and a file-count ceiling of 1. -/
def exampleState : DriveState :=
  { files := [
      mkFile 10 1 "a.txt" 3 "1/a.txt" false none,
      mkFile 11 1 "b.txt" 4 "1/b.txt" true (some 4),
      mkFile 12 1 "c.txt" 7 "1/v2" false none,
      mkFile 13 1 "d.txt" 2 "1/d.txt" false none ],
    file_versions := [
      { file_id := 12, version_number := 1, size := 5, path := "1/v1",
        change_type := ChangeType.update, created_by := 1 },
      { file_id := 12, version_number := 2, size := 7, path := "1/v2",
        change_type := ChangeType.update, created_by := 1 } ],
    shares := [
      { id := 100, file_id := 10, owner_id := 1, shared_with_email := "v@x",
        permissions := SharePerm.view, share_type := ShareType.privateShare,
        public_token := none, expires_at := none },
      { id := 101, file_id := 10, owner_id := 1, shared_with_email := "e@x",
        permissions := SharePerm.admin, share_type := ShareType.privateShare,
        public_token := none, expires_at := none },
      { id := 103, file_id := 10, owner_id := 1, shared_with_email := "",
        permissions := SharePerm.view, share_type := ShareType.publicShare,
        public_token := some "tok1", expires_at := none },
      { id := 104, file_id := 11, owner_id := 1, shared_with_email := "",
        permissions := SharePerm.view, share_type := ShareType.publicShare,
        public_token := some "tok2", expires_at := none },
      { id := 105, file_id := 10, owner_id := 1, shared_with_email := "",
        permissions := SharePerm.view, share_type := ShareType.publicShare,
        public_token := some "tok3", expires_at := some 5 } ],
    user_quotas := [
      { user_id := 7, storage_used := 100, storage_limit := 105,
        file_count := 1, file_count_limit := 1 } ],
    profiles := [
      { id := 1, email := "o@x" }, { id := 2, email := "v@x" },
      { id := 3, email := "e@x" }, { id := 4, email := "n@x" } ],
    blobs := ["1/a.txt", "1/b.txt", "1/v1", "1/v2", "1/d.txt"] }

/-- Two version blobs for the sequential-numbering example on file 13. -/
def demoBlobs : List VBlob :=
  [ { vname := "n1", bsize := 4, mime := "text/plain", ext := some "txt" },
    { vname := "n2", bsize := 6, mime := "text/plain", ext := some "txt" } ]

/-- The drive after user 1 shares file 12 with user 4 (first, successful
targeted-share call of the duplicate-share example). -/
def sharedOnce : DriveState :=
  (shareFile exampleState 1 12 "n@x" SharePerm.view 300).2

/-- Folding `max` from 0 over the numbers 1..k yields k. -/
theorem foldl_max_range_one : ∀ k : Nat, (List.range' 1 k).foldl max 0 = k := by
  intro k
  induction k with
  | zero => rfl
  | succ n ih =>
    rw [List.range'_1_concat, List.foldl_append, ih]
    simp [Nat.max_def]
    omega

/-- `find?` commutes with a map that does not disturb the predicate. -/
theorem find?_map_invariant {α : Type} {g : α → α} {p : α → Bool}
    (hg : ∀ x, p (g x) = p x) (l : List α) :
    (l.map g).find? p = (l.find? p).map g := by
  rw [List.find?_map]
  have h : (p ∘ g) = p := funext hg
  rw [h]

/-- Appending one version row extends the recorded numbers of its file by
its number and leaves other files' numbers unchanged. -/
theorem versionNumbersOf_append (vs : List VersionRow) (r : VersionRow)
    (fid : Nat) :
    versionNumbersOf (vs ++ [r]) fid =
      versionNumbersOf vs fid ++
        (if r.file_id == fid then [r.version_number] else []) := by
  by_cases h : r.file_id == fid <;>
    simp [versionNumbersOf, List.filter_append, h]

/-- C1: an upload whose size pushes the caller's effective usage
(storage_used, defaulting to 0) past the effective limit (storage_limit,
defaulting to 5GiB) is answered 403 with code STORAGE_LIMIT_EXCEEDED and
leaves the whole state — blobs and file rows included — untouched; with
storage headroom but the file count at its ceiling the code is
FILE_COUNT_LIMIT_EXCEEDED, again with nothing written; and a user with no
quota row gets the (0, 5GiB, 0, 10000) free-tier baseline. -/
theorem upload_rejected_over_quota (st : DriveState) (userId : Nat)
    (origName : String) (fsize : Nat) (mime randName : String)
    (parentId : Option Nat) (newId : Nat) (U L C CL : Nat)
    (hq : effectiveQuota st.user_quotas userId = (U, L, C, CL)) :
    (U + fsize > L →
      uploadFile st userId origName fsize mime randName parentId newId =
        ({ status := 403, code := some "STORAGE_LIMIT_EXCEEDED" }, st)) ∧
    (U + fsize ≤ L → C + 1 > CL →
      uploadFile st userId origName fsize mime randName parentId newId =
        ({ status := 403, code := some "FILE_COUNT_LIMIT_EXCEEDED" }, st)) ∧
    (st.user_quotas.find? (fun r => r.user_id == userId) = none →
      effectiveQuota st.user_quotas userId =
        (0, 5 * 1024 * 1024 * 1024, 0, 10000)) := by
  refine ⟨?_, ?_, ?_⟩
  · intro hover
    have hcheck : enforceQuotaOnUpload st.user_quotas userId fsize =
        QuotaCheck.denied "STORAGE_LIMIT_EXCEEDED" := by
      simp only [enforceQuotaOnUpload, hq]
      simp [hover]
    simp [uploadFile, hcheck]
  · intro hle hcnt
    have h1 : ¬ (U + fsize > L) := by omega
    have hcheck : enforceQuotaOnUpload st.user_quotas userId fsize =
        QuotaCheck.denied "FILE_COUNT_LIMIT_EXCEEDED" := by
      simp only [enforceQuotaOnUpload, hq]
      simp [h1, hcnt]
    simp [uploadFile, hcheck]
  · intro hnone
    simp [effectiveQuota, hnone]

/-- C1 witness: user 7 of the example (used 100 of 105 bytes, 1 of 1
files) is rejected for storage on a 10-byte upload and for file count on a
2-byte upload, both without any state change; user 8 has no quota row and
gets the free-tier baseline. -/
theorem upload_rejected_over_quota_witness :
    uploadFile exampleState 7 "a.txt" 10 "text/plain" "r1" none 50 =
      ({ status := 403, code := some "STORAGE_LIMIT_EXCEEDED" },
       exampleState) ∧
    uploadFile exampleState 7 "a.txt" 2 "text/plain" "r1" none 50 =
      ({ status := 403, code := some "FILE_COUNT_LIMIT_EXCEEDED" },
       exampleState) ∧
    effectiveQuota exampleState.user_quotas 8 =
      (0, 5 * 1024 * 1024 * 1024, 0, 10000) :=
  ⟨(upload_rejected_over_quota exampleState 7 "a.txt" 10 "text/plain" "r1"
      none 50 100 105 1 1 (by decide)).1 (by decide),
   (upload_rejected_over_quota exampleState 7 "a.txt" 2 "text/plain" "r1"
      none 50 100 105 1 1 (by decide)).2.1 (by decide) (by decide),
   (upload_rejected_over_quota exampleState 8 "a.txt" 2 "text/plain" "r1"
      none 50 0 (5 * 1024 * 1024 * 1024) 0 10000 (by decide)).2.2
      (by decide)⟩

/-- C2: permission resolution — an owner is always allowed at level owner;
a non-owner is never allowed the owner level; otherwise the private share
row keyed by (file id, caller's email) decides: no row denies, any row
allows view, and edit is allowed exactly when the row's permission is edit
or admin (admin being downgraded to the edit level). -/
theorem permission_resolution (st : DriveState) (userId fileId : Nat) :
    (isOwner st userId fileId = true → ∀ needed,
      hasFilePermission st userId fileId needed =
        { allowed := true, level := some PermissionLevel.owner }) ∧
    (isOwner st userId fileId = false →
      hasFilePermission st userId fileId PermissionLevel.owner =
        { allowed := false, level := none } ∧
      ∀ email, getCurrentUserEmail st userId = some email → email ≠ "" →
        (findShare st.shares fileId email = none →
          hasFilePermission st userId fileId PermissionLevel.view =
            { allowed := false, level := none } ∧
          hasFilePermission st userId fileId PermissionLevel.edit =
            { allowed := false, level := none }) ∧
        (∀ s, findShare st.shares fileId email = some s →
          hasFilePermission st userId fileId PermissionLevel.view =
            { allowed := true, level := some (levelOfShare s) } ∧
          ((hasFilePermission st userId fileId PermissionLevel.edit).allowed
              = true ↔
            (s.permissions = SharePerm.edit ∨
             s.permissions = SharePerm.admin)))) := by
  refine ⟨?_, ?_⟩
  · intro how needed
    simp [hasFilePermission, how]
  · intro hnot
    refine ⟨by simp [hasFilePermission, hnot], ?_⟩
    intro email hemail hne
    refine ⟨?_, ?_⟩
    · intro hshare
      constructor <;> simp [hasFilePermission, hnot, hemail, hne, hshare]
    · intro s hshare
      constructor
      · simp [hasFilePermission, hnot, hemail, hne, hshare]
      · simp only [hasFilePermission, hnot, hemail, hne, hshare]
        cases hp : s.permissions <;> simp [levelOfShare, hp]

/-- C2 witness: on file 10 of the example, owner 1 is allowed at level
owner, viewer 2 is denied the owner level but allowed view and denied
edit, admin-share holder 3 is allowed edit, and share-less user 4 is
denied. -/
theorem permission_resolution_witness :
    hasFilePermission exampleState 1 10 PermissionLevel.owner =
      { allowed := true, level := some PermissionLevel.owner } ∧
    hasFilePermission exampleState 2 10 PermissionLevel.owner =
      { allowed := false, level := none } ∧
    hasFilePermission exampleState 2 10 PermissionLevel.view =
      { allowed := true, level := some PermissionLevel.view } ∧
    (hasFilePermission exampleState 3 10 PermissionLevel.edit).allowed
      = true ∧
    hasFilePermission exampleState 4 10 PermissionLevel.edit =
      { allowed := false, level := none } := by
  refine ⟨?_, ?_, ?_, ?_, ?_⟩
  · exact (permission_resolution exampleState 1 10).1 (by decide)
      PermissionLevel.owner
  · exact ((permission_resolution exampleState 2 10).2 (by decide)).1
  · have h := ((((permission_resolution exampleState 2 10).2 (by decide)).2
        "v@x" (by decide) (by decide)).2
        { id := 100, file_id := 10, owner_id := 1,
          shared_with_email := "v@x", permissions := SharePerm.view,
          share_type := ShareType.privateShare, public_token := none,
          expires_at := none } (by decide)).1
    rw [h]; decide
  · exact ((((permission_resolution exampleState 3 10).2 (by decide)).2
        "e@x" (by decide) (by decide)).2
        { id := 101, file_id := 10, owner_id := 1,
          shared_with_email := "e@x", permissions := SharePerm.admin,
          share_type := ShareType.privateShare, public_token := none,
          expires_at := none } (by decide)).2.mpr (Or.inr rfl)
  · exact ((((permission_resolution exampleState 4 10).2 (by decide)).2
        "n@x" (by decide) (by decide)).1 (by decide)).2

/-- C3 counterexample: user 2 holds only a view share on file 10 and can
download it, yet the PATCH and soft-DELETE attempts are answered 404 — not
the 403 the claim requires — because those two handlers never consult
permission resolution. -/
theorem view_share_patch_delete_not_403 :
    (hasFilePermission exampleState 2 10 PermissionLevel.view).allowed
      = true ∧
    (downloadFile exampleState 2 10).status = 200 ∧
    (patchFile exampleState 2 10 (some "renamed") none none).1.status = 404 ∧
    (softDeleteFile exampleState 2 10 99).1.status = 404 ∧
    (patchFile exampleState 2 10 (some "renamed") none none).1.status ≠ 403 ∧
    (softDeleteFile exampleState 2 10 99).1.status ≠ 403 := by
  decide

/-- C3 (amended): a non-owner holding only a view share can download the
file (200 plus a 1-hour signed URL), while PATCH /:id and DELETE /:id are
denied with HTTP 404 and mutate nothing — those handlers verify ownership
directly and treat a non-owned file as not found, without invoking
permission resolution. -/
theorem view_share_download_ok_patch_delete_404 (st : DriveState)
    (userId fileId : Nat) (f : FileRow)
    (hnotown : st.files.find?
      (fun g => g.id == fileId && g.user_id == userId) = none)
    (hperm : (hasFilePermission st userId fileId PermissionLevel.view).allowed
      = true)
    (hfile : st.files.find?
      (fun g => g.id == fileId && g.is_deleted == false) = some f)
    (hblob : f.path ∈ st.blobs) :
    downloadFile st userId fileId =
      { status := 200,
        downloadUrl := some { path := f.path, expiresIn := 3600 } } ∧
    (∀ nm pid sb, patchFile st userId fileId nm pid sb =
      ({ status := 404 }, st)) ∧
    (∀ now, softDeleteFile st userId fileId now = ({ status := 404 }, st)) := by
  refine ⟨?_, ?_, ?_⟩
  · have hfile' : st.files.find? (fun g => g.id == fileId && !g.is_deleted)
        = some f := by simpa using hfile
    simp [downloadFile, hperm, hfile', createSignedUrl, hblob]
  · intro nm pid sb
    simp [patchFile, hnotown]
  · intro now
    simp [softDeleteFile, hnotown]

/-- C3 witness: the amended statement instantiated for viewer 2 and file
10 of the example. -/
theorem view_share_download_ok_patch_delete_404_witness :
    downloadFile exampleState 2 10 =
      { status := 200,
        downloadUrl := some { path := "1/a.txt", expiresIn := 3600 } } ∧
    patchFile exampleState 2 10 (some "renamed") none none =
      ({ status := 404 }, exampleState) ∧
    softDeleteFile exampleState 2 10 99 = ({ status := 404 }, exampleState) := by
  have h := view_share_download_ok_patch_delete_404 exampleState 2 10
    (mkFile 10 1 "a.txt" 3 "1/a.txt" false none)
    (by decide) (by decide) (by decide) (by decide)
  exact ⟨h.1, h.2.1 (some "renamed") none none, h.2.2 99⟩

/-- C4: restoring version k of an owned file whose largest recorded
version number is n (a) answers 200, (b) rewrites the file row's path and
size to version k's, and (c) appends exactly one version row numbered
n + 1 of change kind restore carrying version k's path and size, deleting
no history; when version k does not exist the handler answers 404 and
mutates nothing. -/
theorem restore_version_spec (st : DriveState) (userId fileId k n : Nat)
    (hown : (st.files.find?
      (fun f => f.id == fileId && f.user_id == userId)).isSome)
    (hmax : maxVersionNumber st.file_versions fileId = n) :
    (∀ ver, st.file_versions.find? (fun v =>
        v.file_id == fileId && v.version_number == k) = some ver →
      restoreVersion st userId fileId k =
        ({ status := 200 },
         { st with
           files := st.files.map (fun f =>
             if f.id == fileId then
               { f with path := ver.path, size := ver.size }
             else f),
           file_versions := st.file_versions ++ [{
             file_id := fileId, version_number := n + 1, size := ver.size,
             path := ver.path, change_type := ChangeType.restore,
             created_by := userId }] })) ∧
    (st.file_versions.find? (fun v =>
        v.file_id == fileId && v.version_number == k) = none →
      restoreVersion st userId fileId k = ({ status := 404 }, st)) := by
  obtain ⟨f0, hf0⟩ := Option.isSome_iff_exists.mp hown
  constructor
  · intro ver hver
    simp [restoreVersion, hf0, hver, hmax]
  · intro hver
    simp [restoreVersion, hf0, hver]

/-- C4 witness: on the example's file 12 (versions 1 and 2), restoring
version 1 answers 200, leaves history [1, 2, 3], and sets the file row's
path and size to version 1's; restoring the absent version 5 answers 404
and changes nothing. -/
theorem restore_version_spec_witness :
    (restoreVersion exampleState 1 12 1).1 = { status := 200 } ∧
    versionNumbersOf (restoreVersion exampleState 1 12 1).2.file_versions 12
      = [1, 2, 3] ∧
    ((restoreVersion exampleState 1 12 1).2.files.find?
        (fun f => f.id == 12)).map (fun f => (f.path, f.size)) =
      some ("1/v1", 5) ∧
    restoreVersion exampleState 1 12 5 = ({ status := 404 }, exampleState) := by
  have h1 := (restore_version_spec exampleState 1 12 1 2 (by decide)
      (by decide)).1
      { file_id := 12, version_number := 1, size := 5, path := "1/v1",
        change_type := ChangeType.update, created_by := 1 } (by decide)
  have h2 := (restore_version_spec exampleState 1 12 5 2 (by decide)
      (by decide)).2 (by decide)
  refine ⟨?_, ?_, ?_, h2⟩ <;> rw [h1] <;> decide

/-- C6: soft-deleting an owned file already marked deleted answers 409 and
leaves the state untouched, and restoring from trash an owned file not
marked deleted answers 409 and leaves the state untouched. -/
theorem delete_restore_conflicts (st : DriveState) (userId fileId now : Nat)
    (f : FileRow)
    (hf : st.files.find?
      (fun g => g.id == fileId && g.user_id == userId) = some f) :
    (f.is_deleted = true →
      softDeleteFile st userId fileId now = ({ status := 409 }, st)) ∧
    (f.is_deleted = false →
      restoreFromTrash st userId fileId = ({ status := 409 }, st)) := by
  constructor
  · intro hd
    simp [softDeleteFile, hf, hd]
  · intro hd
    simp [restoreFromTrash, hf, hd]

/-- C6 witness: in the example, soft-deleting the trashed file 11 and
restoring the untrashed file 10 both answer 409 with no state change. -/
theorem delete_restore_conflicts_witness :
    softDeleteFile exampleState 1 11 99 = ({ status := 409 }, exampleState) ∧
    restoreFromTrash exampleState 1 10 = ({ status := 409 }, exampleState) :=
  ⟨(delete_restore_conflicts exampleState 1 11 99
      (mkFile 11 1 "b.txt" 4 "1/b.txt" true (some 4)) (by decide)).1
      (by decide),
   (delete_restore_conflicts exampleState 1 10 99
      (mkFile 10 1 "a.txt" 3 "1/a.txt" false none) (by decide)).2
      (by decide)⟩

/-- C7: resolving a public token answers 404 when no public share carries
it, 410 Gone when the share's expiry is non-null and strictly before now,
and otherwise 200 with the file's metadata and a signed URL valid for
3600 seconds. -/
theorem public_link_resolution (st : DriveState) (token : String)
    (now : Nat) :
    (findPublicShare st.shares token = none →
      (resolvePublicLink st token now).status = 404) ∧
    (∀ s t, findPublicShare st.shares token = some s →
      s.expires_at = some t → t < now →
      (resolvePublicLink st token now).status = 410) ∧
    (∀ s f, findPublicShare st.shares token = some s →
      linkIsExpired s.expires_at now = false →
      st.files.find? (fun g => g.id == s.file_id) = some f →
      f.path ∈ st.blobs →
      resolvePublicLink st token now =
        { status := 200, fileId := some f.id, fileName := some f.name,
          fileSize := some f.size,
          downloadUrl := some { path := f.path, expiresIn := 3600 } }) := by
  refine ⟨?_, ?_, ?_⟩
  · intro h
    simp [resolvePublicLink, h]
  · intro s t hs ht hlt
    simp [resolvePublicLink, hs, linkIsExpired, ht, hlt]
  · intro s f hs hexp hf hb
    simp [resolvePublicLink, hs, hexp, hf, createSignedUrl, hb]

/-- C7 witness: in the example at time 10, an unknown token answers 404,
the token expired at time 5 answers 410, and the live token answers 200
with file 10's metadata and a 3600-second signed URL. -/
theorem public_link_resolution_witness :
    (resolvePublicLink exampleState "zzz" 10).status = 404 ∧
    (resolvePublicLink exampleState "tok3" 10).status = 410 ∧
    resolvePublicLink exampleState "tok1" 10 =
      { status := 200, fileId := some 10, fileName := some "a.txt",
        fileSize := some 3,
        downloadUrl := some { path := "1/a.txt", expiresIn := 3600 } } :=
  ⟨(public_link_resolution exampleState "zzz" 10).1 (by decide),
   (public_link_resolution exampleState "tok3" 10).2.1
      { id := 105, file_id := 10, owner_id := 1, shared_with_email := "",
        permissions := SharePerm.view, share_type := ShareType.publicShare,
        public_token := some "tok3", expires_at := some 5 } 5
      (by decide) (by decide) (by decide),
   (public_link_resolution exampleState "tok1" 10).2.2
      { id := 103, file_id := 10, owner_id := 1, shared_with_email := "",
        permissions := SharePerm.view, share_type := ShareType.publicShare,
        public_token := some "tok1", expires_at := none }
      (mkFile 10 1 "a.txt" 3 "1/a.txt" false none)
      (by decide) (by decide) (by decide) (by decide)⟩

/-- C8: when a targeted share for (file, email) can succeed — non-empty
email, owned file, existing target profile, no share row yet for the
pair — the first call answers 200 and inserts the one row, and a second
call for the same pair on the resulting state answers 409 Conflict and
inserts nothing: afterwards exactly one share row for the pair exists,
where before there were none. -/
theorem duplicate_share_conflict (st : DriveState) (userId fileId : Nat)
    (email : String) (p p' : SharePerm) (sid sid' : Nat)
    (he : email ≠ "")
    (hf : (st.files.find?
      (fun f => f.id == fileId && f.user_id == userId)).isSome)
    (hp : (st.profiles.find? (fun pr => pr.email == email)).isSome)
    (hdup : findShare st.shares fileId email = none) :
    (shareFile st userId fileId email p sid).1 = { status := 200 } ∧
    shareFile (shareFile st userId fileId email p sid).2 userId fileId email
        p' sid' =
      ({ status := 409 }, (shareFile st userId fileId email p sid).2) ∧
    ((shareFile st userId fileId email p sid).2.shares.filter (fun s =>
      s.file_id == fileId && s.shared_with_email == email)).length = 1 ∧
    (st.shares.filter (fun s =>
      s.file_id == fileId && s.shared_with_email == email)).length = 0 := by
  obtain ⟨f0, hf0⟩ := Option.isSome_iff_exists.mp hf
  obtain ⟨pr0, hp0⟩ := Option.isSome_iff_exists.mp hp
  have hnil : st.shares.filter (fun s =>
      s.file_id == fileId && s.shared_with_email == email) = [] := by
    rw [List.filter_eq_nil_iff]
    intro a ha
    have := List.find?_eq_none.mp hdup a ha
    simpa using this
  have hrun : shareFile st userId fileId email p sid =
      ({ status := 200 },
       { st with shares := st.shares ++ [{
           id := sid, file_id := fileId, owner_id := userId,
           shared_with_email := email, permissions := p,
           share_type := ShareType.privateShare, public_token := none,
           expires_at := none }] }) := by
    simp [shareFile, he, hf0, hp0, hdup]
  refine ⟨by rw [hrun], ?_, ?_, by rw [hnil]; rfl⟩
  · rw [hrun]
    simp only [findShare] at hdup
    simp [shareFile, he, hf0, hp0, findShare, List.find?_append, hdup]
  · rw [hrun]
    simp [List.filter_append, hnil]

/-- C8 witness: the first share of file 12 with user 4's email succeeds,
and the repeated call on the resulting state answers 409 and leaves
exactly the one share row for the pair. -/
theorem duplicate_share_conflict_witness :
    (shareFile exampleState 1 12 "n@x" SharePerm.view 300).1 =
      { status := 200 } ∧
    shareFile sharedOnce 1 12 "n@x" SharePerm.edit 301 =
      ({ status := 409 }, sharedOnce) ∧
    (sharedOnce.shares.filter (fun s =>
      s.file_id == 12 && s.shared_with_email == "n@x")).length = 1 ∧
    (exampleState.shares.filter (fun s =>
      s.file_id == 12 && s.shared_with_email == "n@x")).length = 0 :=
  duplicate_share_conflict exampleState 1 12 "n@x" SharePerm.view
    SharePerm.edit 300 301 (by decide) (by decide) (by decide) (by decide)

/-- C9: a live public link resolves with 200, the file's metadata and a
1-hour signed URL even when the linked file is soft-deleted — the lookup
applies no is_deleted filter — whereas the authenticated download endpoint
can only answer 403 or 404 for that file, never 200. -/
theorem public_link_ignores_trash (st : DriveState) (token : String)
    (now : Nat) (s : ShareRow) (f : FileRow)
    (hs : findPublicShare st.shares token = some s)
    (hexp : linkIsExpired s.expires_at now = false)
    (hf : st.files.find? (fun g => g.id == s.file_id) = some f)
    (_hdel : f.is_deleted = true)
    (hblob : f.path ∈ st.blobs)
    (hnone : st.files.find?
      (fun g => g.id == s.file_id && g.is_deleted == false) = none) :
    resolvePublicLink st token now =
      { status := 200, fileId := some f.id, fileName := some f.name,
        fileSize := some f.size,
        downloadUrl := some { path := f.path, expiresIn := 3600 } } ∧
    ∀ userId, (downloadFile st userId s.file_id).status = 403 ∨
      (downloadFile st userId s.file_id).status = 404 := by
  constructor
  · simp [resolvePublicLink, hs, hexp, hf, createSignedUrl, hblob]
  · intro u
    have hnone' : st.files.find?
        (fun g => g.id == s.file_id && !g.is_deleted) = none := by
      simpa using hnone
    by_cases hpm :
        (hasFilePermission st u s.file_id PermissionLevel.view).allowed
          = false
    · left
      simp [downloadFile, hpm]
    · right
      simp [downloadFile, hpm, hnone']

/-- C9 witness: token tok2 of the example points at the trashed file 11
and still resolves with 200 and a signed URL, while the owner's own
authenticated download of file 11 is a 403/404. -/
theorem public_link_ignores_trash_witness :
    resolvePublicLink exampleState "tok2" 10 =
      { status := 200, fileId := some 11, fileName := some "b.txt",
        fileSize := some 4,
        downloadUrl := some { path := "1/b.txt", expiresIn := 3600 } } ∧
    ((downloadFile exampleState 1 11).status = 403 ∨
      (downloadFile exampleState 1 11).status = 404) := by
  have h := public_link_ignores_trash exampleState "tok2" 10
    { id := 104, file_id := 11, owner_id := 1, shared_with_email := "",
      permissions := SharePerm.view, share_type := ShareType.publicShare,
      public_token := some "tok2", expires_at := none }
    (mkFile 11 1 "b.txt" 4 "1/b.txt" true (some 4))
    (by decide) (by decide) (by decide) (by decide) (by decide) (by decide)
  exact ⟨h.1, h.2 1⟩

/-- C10: permanent deletion of an owned file needs no prior soft delete —
whatever the is_deleted flag, the handler answers 200, removes the blob
(best-effort, skipped only for an empty path) and deletes the row. -/
theorem permanent_delete_regardless_of_trash (st : DriveState)
    (userId fileId : Nat) (f : FileRow)
    (hf : st.files.find?
      (fun g => g.id == fileId && g.user_id == userId) = some f) :
    permanentDeleteFile st userId fileId =
      ({ status := 200 },
       { st with
         blobs := if f.path ≠ "" then st.blobs.filter (fun p => p ≠ f.path)
                  else st.blobs,
         files := st.files.filter (fun g => g.id != fileId) }) := by
  simp [permanentDeleteFile, hf]

/-- C10 witness: in the example, permanently deleting the never-trashed
file 10 and the trashed file 11 both answer 200 and remove the row and
blob. -/
theorem permanent_delete_regardless_of_trash_witness :
    (permanentDeleteFile exampleState 1 10).1 = { status := 200 } ∧
    ((permanentDeleteFile exampleState 1 10).2.files.map (fun f => f.id)) =
      [11, 12, 13] ∧
    (permanentDeleteFile exampleState 1 10).2.blobs =
      ["1/b.txt", "1/v1", "1/v2", "1/d.txt"] ∧
    (permanentDeleteFile exampleState 1 11).1 = { status := 200 } ∧
    ((permanentDeleteFile exampleState 1 11).2.files.map (fun f => f.id)) =
      [10, 12, 13] ∧
    (permanentDeleteFile exampleState 1 11).2.blobs =
      ["1/a.txt", "1/v1", "1/v2", "1/d.txt"] := by
  have h10 := permanent_delete_regardless_of_trash exampleState 1 10
    (mkFile 10 1 "a.txt" 3 "1/a.txt" false none) (by decide)
  have h11 := permanent_delete_regardless_of_trash exampleState 1 11
    (mkFile 11 1 "b.txt" 4 "1/b.txt" true (some 4)) (by decide)
  rw [h10, h11]
  decide

/-- Generalised induction step for serialized version creation: starting
from a state whose recorded numbers for the file are exactly 1..k, a run
of fresh-pathed creations succeeds throughout, returns the numbers
k+1, k+2, ... in order, and leaves the file's recorded numbers exactly
1..(k + number of calls). -/
theorem iterCreateVersions_spec (userId fileId : Nat) :
    ∀ (bs : List VBlob) (st : DriveState) (k : Nat),
      (st.files.find? (fun f =>
        f.id == fileId && f.user_id == userId &&
          f.is_deleted == false)).isSome = true →
      (bs.map (fun b => versionPathOf userId fileId b.vname)).Nodup →
      (∀ b ∈ bs, versionPathOf userId fileId b.vname ∉ st.blobs) →
      versionNumbersOf st.file_versions fileId = List.range' 1 k →
      ((iterCreateVersions userId fileId st bs).1.map
          (fun r => (r.status, r.versionNumber)) =
        (List.range' (k + 1) bs.length).map (fun n => (200, some n))) ∧
      versionNumbersOf
          (iterCreateVersions userId fileId st bs).2.file_versions fileId =
        List.range' 1 (k + bs.length) := by
  intro bs
  induction bs with
  | nil =>
    intro st k _ _ _ hk
    exact ⟨by simp [iterCreateVersions],
           by simpa [iterCreateVersions] using hk⟩
  | cons b bs ih =>
    intro st k hfile hnodup hfresh hk
    obtain ⟨f, hf⟩ := Option.isSome_iff_exists.mp hfile
    have hpath : versionPathOf userId fileId b.vname ∉ st.blobs :=
      hfresh b (List.mem_cons_self b bs)
    have hmaxk : maxVersionNumber st.file_versions fileId = k := by
      rw [maxVersionNumber, hk, foldl_max_range_one]
    have hstep : createVersion st userId fileId b =
        ({ status := 200, versionNumber := some (k + 1) },
         { st with
           blobs := st.blobs ++ [versionPathOf userId fileId b.vname],
           file_versions := st.file_versions ++ [{
             file_id := fileId, version_number := k + 1, size := b.bsize,
             path := versionPathOf userId fileId b.vname,
             change_type := ChangeType.update, created_by := userId }],
           files := st.files.map (fun f =>
             if f.id == fileId then
               { f with
                 size := b.bsize, type := b.mime, mime_type := b.mime,
                 extension := b.ext,
                 path := versionPathOf userId fileId b.vname }
             else f) }) := by
      simp only [createVersion, hf]
      rw [if_neg hpath, hmaxk]
    have hiter : iterCreateVersions userId fileId st (b :: bs) =
        ((createVersion st userId fileId b).1 ::
          (iterCreateVersions userId fileId
            (createVersion st userId fileId b).2 bs).1,
         (iterCreateVersions userId fileId
           (createVersion st userId fileId b).2 bs).2) := rfl
    have hg : ∀ x : FileRow,
        (fun f : FileRow => f.id == fileId && f.user_id == userId &&
          f.is_deleted == false)
          ((fun f : FileRow =>
            if f.id == fileId then
              { f with
                size := b.bsize, type := b.mime, mime_type := b.mime,
                extension := b.ext,
                path := versionPathOf userId fileId b.vname }
            else f) x) =
        (fun f : FileRow => f.id == fileId && f.user_id == userId &&
          f.is_deleted == false) x := by
      intro x
      by_cases hx : x.id == fileId <;> simp [hx]
    have hfile1 : ((createVersion st userId fileId b).2.files.find? (fun f =>
        f.id == fileId && f.user_id == userId &&
          f.is_deleted == false)).isSome = true := by
      simp only [hstep]
      rw [find?_map_invariant hg, hf]
      rfl
    have hnodup1 :
        (bs.map (fun b => versionPathOf userId fileId b.vname)).Nodup := by
      simp only [List.map_cons] at hnodup
      exact (List.nodup_cons.mp hnodup).2
    have hfresh1 : ∀ b' ∈ bs, versionPathOf userId fileId b'.vname ∉
        (createVersion st userId fileId b).2.blobs := by
      intro b' hb' hmem
      simp only [hstep] at hmem
      rcases List.mem_append.mp hmem with h1 | h2
      · exact hfresh b' (List.mem_cons_of_mem b hb') h1
      · have heq : versionPathOf userId fileId b'.vname =
            versionPathOf userId fileId b.vname := by simpa using h2
        have hnotin : versionPathOf userId fileId b.vname ∉
            bs.map (fun b => versionPathOf userId fileId b.vname) := by
          simp only [List.map_cons] at hnodup
          exact (List.nodup_cons.mp hnodup).1
        exact hnotin (List.mem_map.mpr ⟨b', hb', heq⟩)
    have hnum1 : versionNumbersOf
        (createVersion st userId fileId b).2.file_versions fileId =
        List.range' 1 (k + 1) := by
      simp only [hstep]
      rw [versionNumbersOf_append]
      simp only [beq_self_eq_true, if_pos]
      rw [hk, List.range'_1_concat]
      simp [Nat.add_comm]
    obtain ⟨ih1, ih2⟩ := ih (createVersion st userId fileId b).2 (k + 1)
      hfile1 hnodup1 hfresh1 hnum1
    constructor
    · rw [hiter]
      simp only [List.map_cons, List.length_cons]
      rw [ih1]
      simp only [hstep]
      rw [List.range'_succ]
      simp
    · simp only [hiter]
      rw [ih2]
      simp only [List.length_cons]
      have harg : k + 1 + bs.length = k + (bs.length + 1) := by omega
      rw [harg]

/-- C5: a serialized run of N successful version creations on a file with
no prior versions assigns exactly the numbers 1..N, in order, with no
gaps or duplicates — each call numbering itself (max existing, or 0 when
none) + 1 — and the file's recorded numbers afterwards are exactly
1..N. -/
theorem version_numbers_one_to_n (st : DriveState) (userId fileId : Nat)
    (bs : List VBlob)
    (hfile : (st.files.find? (fun f =>
      f.id == fileId && f.user_id == userId &&
        f.is_deleted == false)).isSome = true)
    (hnodup : (bs.map (fun b => versionPathOf userId fileId b.vname)).Nodup)
    (hfresh : ∀ b ∈ bs, versionPathOf userId fileId b.vname ∉ st.blobs)
    (hempty : versionNumbersOf st.file_versions fileId = []) :
    ((iterCreateVersions userId fileId st bs).1.map
        (fun r => (r.status, r.versionNumber)) =
      (List.range' 1 bs.length).map (fun n => (200, some n))) ∧
    versionNumbersOf
        (iterCreateVersions userId fileId st bs).2.file_versions fileId =
      List.range' 1 bs.length := by
  have h := iterCreateVersions_spec userId fileId bs st 0 hfile hnodup hfresh
    (by simpa using hempty)
  simpa using h

/-- C5 witness: two version creations on the example's version-less file
13 answer 200 with numbers 1 and 2 and leave the recorded numbers
[1, 2]. -/
theorem version_numbers_one_to_n_witness :
    ((iterCreateVersions 1 13 exampleState demoBlobs).1.map
        (fun r => (r.status, r.versionNumber)) =
      (List.range' 1 demoBlobs.length).map (fun n => (200, some n))) ∧
    versionNumbersOf
        (iterCreateVersions 1 13 exampleState demoBlobs).2.file_versions 13 =
      List.range' 1 demoBlobs.length :=
  version_numbers_one_to_n exampleState 1 13 demoBlobs (by decide)
    (by decide) (by decide) (by decide)

end CloudDrive
